import Mathlib

/-!
Verification development for the dialogue-script interpreter
(`get_jsonScript.py` text-script compiler, `Ast1.py` syntax tree and
`ScriptInterpreter.py` execution engine).

The Python source is shallowly embedded: Python `dict`s become ordered
association lists with overwrite-in-place insertion, Python dynamic scalar
values become `PyVal`, and the engine's `run` loop becomes a fuelled
recursive function over the compiled step graph.  All string processing is
done on `List Char` so that every definition evaluates by kernel reduction.
-/

namespace CSBot

/-- The quote characters, defined numerically so that string literals in this
file stay plain. `squote` is the apostrophe (Python `repr` quoting), `dquote`
the double quote used by the script grammar. -/
def squote : Char := Char.ofNat 39

/-- Double-quote character (see `squote`). -/
def dquote : Char := Char.ofNat 34

/-- Dynamically-typed scalar values held by the session variable store:
Python `str`, `int` and `bool` (the value kinds the scripts and user data in
the repository use). -/
inductive PyVal
  | str (s : String)
  | int (n : Int)
  | bool (b : Bool)
deriving DecidableEq, Repr

/-- Python `repr` restricted to `PyVal` (used by the guard-substitution code
`expr_eval.replace(f"${k}", repr(v))` in `Ast1.py`).  String escaping is not
modelled: the values exercised below contain no quote characters. -/
def pyRepr : PyVal → String
  | .str s => squote.toString ++ s ++ squote.toString
  | .int n => toString n
  | .bool b => if b then "True" else "False"

/-- Python `str()` on a `PyVal` (used by `Speak` template substitution
`text.replace(f"${{{k}}}", str(v))` in `ScriptInterpreter.py`). -/
def pyStr : PyVal → String
  | .str s => s
  | .int n => toString n
  | .bool b => if b then "True" else "False"

/-- Python numeric coercion: `bool` is a subclass of `int`, so `True` counts
as `1` in comparisons; strings are not numbers. -/
def pyToNum : PyVal → Option Int
  | .int n => some n
  | .bool b => some (if b then 1 else 0)
  | .str _ => none

/-- Python `==` on `PyVal`: numeric kinds compare numerically (so
`True == 1`), strings compare as strings, and a string never equals a
number (no error: `'1' == 1` is `False` in Python). -/
def pyEq (a b : PyVal) : Bool :=
  match pyToNum a, pyToNum b with
  | some x, some y => x == y
  | _, _ =>
    match a, b with
    | .str s, .str t => s == t
    | _, _ => false

/-- Python ordering comparison on `PyVal`: defined between two numeric values
and between two strings (lexicographic); a string/number mix raises
`TypeError`, modelled as `none`. -/
def pyOrd (a b : PyVal) : Option Ordering :=
  match pyToNum a, pyToNum b with
  | some x, some y => some (compare x y)
  | _, _ =>
    match a, b with
    | .str s, .str t => some (compare s t)
    | _, _ => none

/-- Python dict insertion `d[k] = v`: overwrites in place when the key is
already present, otherwise appends (insertion order is preserved, as in
Python 3.7+). -/
def dictInsert {α : Type} (k : String) (v : α) : List (String × α) → List (String × α)
  | [] => [(k, v)]
  | (k', v') :: rest => if k' = k then (k, v) :: rest else (k', v') :: dictInsert k v rest

/-- Python dict lookup `d.get(k)`. -/
def dictLookup {α : Type} (k : String) : List (String × α) → Option α
  | [] => none
  | (k', v) :: rest => if k' = k then some v else dictLookup k rest

/-- Python `k in d`. -/
def dictContains {α : Type} (k : String) (d : List (String × α)) : Bool :=
  (dictLookup k d).isSome

/-- Whitespace as recognized by Python's `strip()` / `\s` on the ASCII range
used by the scripts. -/
def isWs (c : Char) : Bool :=
  c == ' ' || c == '\t' || c == '\r' || c == '\n'

/-- A `\w` word character (ASCII fragment exercised by the repository's
scripts; Python's `\w` additionally covers other unicode letters). -/
def isWordChar (c : Char) : Bool :=
  c.isAlphanum || c == '_'

/-- Python `str.strip()` on a character list. -/
def trimChars (l : List Char) : List Char :=
  ((l.dropWhile isWs).reverse.dropWhile isWs).reverse

/-- Consume an exact literal from the front of the input, returning the rest
(regex literal text). -/
def dropLit : List Char → List Char → Option (List Char)
  | [], s => some s
  | c :: cs, d :: ds => if c = d then dropLit cs ds else none
  | _ :: _, [] => none

/-- Regex `\s+`: at least one whitespace character, consumed greedily. -/
def ws1 : List Char → Option (List Char)
  | c :: rest => if isWs c then some (rest.dropWhile isWs) else none
  | [] => none

/-- Regex `\s*`. -/
def wsStar (l : List Char) : List Char := l.dropWhile isWs

/-- Regex `(\w+)`: a nonempty greedy run of word characters. -/
def word1 (l : List Char) : Option (String × List Char) :=
  let w := l.takeWhile isWordChar
  if w = [] then none else some (String.mk w, l.dropWhile isWordChar)

/-- Decimal digits folded to a `Nat`. -/
def digitsToNat (cs : List Char) : Nat :=
  cs.foldl (fun a c => a * 10 + (c.toNat - 48)) 0

/-- Regex `([\d]+)` converted by Python `int(...)`. -/
def digits1 (l : List Char) : Option (Int × List Char) :=
  let ds := l.takeWhile Char.isDigit
  if ds = [] then none else some ((digitsToNat ds : Nat), l.dropWhile Char.isDigit)

/-- A Python integer literal, possibly negative (the shape `repr` emits for
`PyVal.int`). -/
def parseIntChars : List Char → Option Int
  | [] => none
  | '-' :: rest =>
    if rest ≠ [] ∧ rest.all Char.isDigit then some (-(digitsToNat rest : Int)) else none
  | l => if l.all Char.isDigit then some ((digitsToNat l : Nat) : Int) else none

/-- Python `str.replace(pat, rep)`: non-overlapping, left to right.  Fuelled
by the input length (sufficient whenever `pat` is nonempty, which holds for
every call site below). -/
def replaceCharsAux : Nat → List Char → List Char → List Char → List Char
  | 0, _, _, s => s
  | _ + 1, _, _, [] => []
  | fuel + 1, pat, rep, c :: rest =>
    match dropLit pat (c :: rest) with
    | some r => rep ++ replaceCharsAux fuel pat rep r
    | none => c :: replaceCharsAux fuel pat rep rest

/-- Python `s.replace(pat, rep)` on strings. -/
def strReplace (s pat rep : String) : String :=
  String.mk (replaceCharsAux (s.toList.length + 1) pat.toList rep.toList s.toList)

/-- The guard-substitution step of `ASTNode1.get_next_node_name` /
`ASTree1.run`: `for k, v in context.items(): expr = expr.replace("$"+k, repr(v))`,
in the store's insertion order. -/
def condSubst (ctx : List (String × PyVal)) (expr : String) : String :=
  ctx.foldl (fun e kv => strReplace e ("$" ++ kv.1) (pyRepr kv.2)) expr

/-- Split a character list on single spaces. -/
def splitSpacesAux : List Char → List Char → List (List Char)
  | [], cur => [cur.reverse]
  | c :: rest, cur =>
    if c = ' ' then cur.reverse :: splitSpacesAux rest []
    else splitSpacesAux rest (c :: cur)

/-- Tokens of a substituted condition string (nonempty space-separated
runs). -/
def condTokens (s : String) : List (List Char) :=
  (splitSpacesAux s.toList []).filter (fun t => t ≠ [])

/-- A Python literal as it appears in a substituted condition: `True`,
`False`, a `repr`-quoted string, or an integer.  Anything else (e.g. a bare
name, which would raise `NameError`) is `none`. -/
def parsePyLit (cs : List Char) : Option PyVal :=
  if cs = ['T', 'r', 'u', 'e'] then some (.bool true)
  else if cs = ['F', 'a', 'l', 's', 'e'] then some (.bool false)
  else
    match cs with
    | c :: rest =>
      if c = squote ∧ rest ≠ [] ∧ rest.getLast? = some squote then
        some (.str (String.mk rest.dropLast))
      else
        (parseIntChars cs).map PyVal.int
    | [] => none

/-- Model of Python `eval` restricted to the single binary comparison
`lit op lit` that the script grammar's substituted guard conditions take
(`==`, `!=`, `>`, `<`, `>=`, `<=`).  `none` models an evaluation error
(`NameError`, `TypeError`, `SyntaxError` inside `eval`), which the source
catches and treats as a non-firing guard.  The source actually calls the
unrestricted `eval` builtin — the security defect recorded against claim
C2 — so this model is exact only on the bounded comparison fragment. -/
def pyEvalCmp (s : String) : Option Bool :=
  match condTokens s with
  | [l, op, r] =>
    match parsePyLit l, parsePyLit r with
    | some a, some b =>
      if op = ['=', '='] then some (pyEq a b)
      else if op = ['!', '='] then some (!pyEq a b)
      else if op = ['>'] then (pyOrd a b).map (fun o => o == .gt)
      else if op = ['<'] then (pyOrd a b).map (fun o => o == .lt)
      else if op = ['>', '='] then (pyOrd a b).map (fun o => o != .lt)
      else if op = ['<', '='] then (pyOrd a b).map (fun o => o != .gt)
      else none
    | _, _ => none
  | _ => none

/-! ### Script compiler (`get_jsonScript.parse_text_script`) -/

/-- A compiled action record (the `{"type": ...}` dicts built by
`parse_text_script`, as a closed variant). -/
inductive Action1
  | speak (content : String)
  | listen (min max : Int)
  | upgrate (field value : String)
  | exitA
  | middle
deriving DecidableEq, Repr

/-- One compiled step: ordered actions, branch map (intent label → target)
and guard list (`if` entries: condition, goto), exactly the fields
`flush_step` writes and `from_json_script` reads back into `ASTNode1`. -/
structure Step1 where
  actions : List Action1
  branch : List (String × String)
  ifs : List (String × String)
deriving DecidableEq, Repr

/-- Regex `Step\s+(\w+)` (anchored at the start, trailing text ignored). -/
def matchStep (l : List Char) : Option String :=
  (dropLit "Step".toList l).bind fun r =>
    (ws1 r).bind fun r2 => (word1 r2).map (fun p => p.1)

/-- Regex `Speak\s+(.+)`, returning the raw expression group. -/
def matchSpeak (l : List Char) : Option String :=
  (dropLit "Speak".toList l).bind fun r =>
    (ws1 r).bind fun r2 => if r2 = [] then none else some (String.mk r2)

/-- Left brace / right brace characters (for `${name}` templates). -/
def lbrace : Char := Char.ofNat 123

/-- Right brace character (see `lbrace`). -/
def rbrace : Char := Char.ofNat 125

/-- `_expr_to_template`: `re.findall(r'(\$[a-zA-Z_][\w]*)|"(.*?)"', expr)`
concatenated, with `$name` rewritten to a `${name}` placeholder.  Fuelled by
the input length (each step consumes at least one character). -/
def exprToTemplateAux : Nat → List Char → List Char
  | 0, _ => []
  | _ + 1, [] => []
  | fuel + 1, c :: rest =>
    if c = '$' then
      match rest with
      | d :: _ =>
        if d.isAlpha || d = '_' then
          let name := rest.takeWhile isWordChar
          '$' :: lbrace :: (name ++ (rbrace :: exprToTemplateAux fuel (rest.dropWhile isWordChar)))
        else exprToTemplateAux fuel rest
      | [] => []
    else if c = dquote then
      let inner := rest.takeWhile (fun d => d ≠ dquote)
      match rest.dropWhile (fun d => d ≠ dquote) with
      | _ :: after => inner ++ exprToTemplateAux fuel after
      | [] => exprToTemplateAux fuel rest
    else exprToTemplateAux fuel rest

/-- `_expr_to_template` on strings. -/
def exprToTemplate (s : String) : String :=
  String.mk (exprToTemplateAux (s.toList.length + 1) s.toList)

/-- Python `s.strip('"')`: remove every leading and trailing double quote. -/
def stripQuotes (s : String) : String :=
  String.mk (((s.toList.dropWhile (fun c => c = dquote)).reverse.dropWhile
    (fun c => c = dquote)).reverse)

/-- Regex `Listen\s+([\d]+)\s*,\s*([\d]+)`. -/
def matchListen (l : List Char) : Option (Int × Int) :=
  (dropLit "Listen".toList l).bind fun r =>
    (ws1 r).bind fun r2 =>
      (digits1 r2).bind fun p =>
        match wsStar p.2 with
        | c :: rest =>
          if c = ',' then (digits1 (wsStar rest)).map (fun q => (p.1, q.1))
          else none
        | [] => none

/-- Regex `UPGRATE\s+\$([a-zA-Z_][\w]*)\s+\"?([^\"]*)\"?`: the field is an
identifier after `$`; the value is the greedy run of non-quote characters
after an optional opening quote. -/
def matchUpgrate (l : List Char) : Option (String × String) :=
  (dropLit "UPGRATE".toList l).bind fun r =>
    (ws1 r).bind fun r2 =>
      match r2 with
      | c :: d :: ds =>
        if c = '$' ∧ (d.isAlpha || d = '_') = true then
          let field := String.mk (d :: ds.takeWhile isWordChar)
          (ws1 (ds.dropWhile isWordChar)).map fun r3 =>
            let body := match r3 with
              | e :: es => if e = dquote then es else r3
              | [] => r3
            (field, String.mk (body.takeWhile (fun e => e ≠ dquote)))
        else none
      | _ => none

/-- The suffix `\s+Then\s+(\w+)` of the `If` rule. -/
def matchWsThenWord (l : List Char) : Option String :=
  (ws1 l).bind fun r =>
    (dropLit "Then".toList r).bind fun r2 =>
      (ws1 r2).bind fun r3 => (word1 r3).map (fun p => p.1)

/-- Non-greedy search for the `(.+?)\s+Then\s+(\w+)` split: the condition
grows one character at a time and the shortest one whose remainder matches
wins, exactly as regex backtracking resolves `.+?`. -/
def findThenSplit : List Char → List Char → Option (String × String)
  | _, [] => none
  | condRev, c :: rest =>
    match matchWsThenWord rest with
    | some w => some (String.mk (c :: condRev).reverse, w)
    | none => findThenSplit (c :: condRev) rest

/-- Regex `If\s+(.+?)\s+Then\s+(\w+)`, followed by the source's
`strip()` and `replace('"', "'")` on the condition group. -/
def matchIf (l : List Char) : Option (String × String) :=
  (dropLit "If".toList l).bind fun r =>
    (ws1 r).bind fun r2 =>
      (findThenSplit [] r2).map fun p =>
        (strReplace (String.mk (trimChars p.1.toList)) dquote.toString squote.toString, p.2)

/-- The suffix `\s*,\s*(\w+)` of the quoted `Branch` rule. -/
def matchCommaWord (l : List Char) : Option String :=
  match wsStar l with
  | c :: rest => if c = ',' then (word1 (wsStar rest)).map (fun p => p.1) else none
  | [] => none

/-- Non-greedy search for the closing quote of `Branch\s+"(.+?)"\s*,\s*(\w+)`:
a quote position is accepted only when the key so far is nonempty and the
remainder matches; otherwise the quote joins the key (regex backtracking). -/
def findQuoteSplit : List Char → List Char → Option (String × String)
  | _, [] => none
  | keyRev, c :: rest =>
    if c = dquote ∧ keyRev ≠ [] then
      match matchCommaWord rest with
      | some w => some (String.mk keyRev.reverse, w)
      | none => findQuoteSplit (c :: keyRev) rest
    else findQuoteSplit (c :: keyRev) rest

/-- Regex `Branch\s+"(.+?)"\s*,\s*(\w+)`. -/
def matchBranchQ (l : List Char) : Option (String × String) :=
  (dropLit "Branch".toList l).bind fun r =>
    (ws1 r).bind fun r2 =>
      match r2 with
      | c :: rest => if c = dquote then findQuoteSplit [] rest else none
      | [] => none

/-- Non-greedy comma split for the unquoted `Branch\s+(.+?),\s*(\w+)` rule. -/
def findCommaSplit : List Char → List Char → Option (String × String)
  | _, [] => none
  | keyRev, c :: rest =>
    if c = ',' ∧ keyRev ≠ [] then
      match word1 (wsStar rest) with
      | some p => some (String.mk keyRev.reverse, p.1)
      | none => findCommaSplit (c :: keyRev) rest
    else findCommaSplit (c :: keyRev) rest

/-- Regex `Branch\s+(.+?),\s*(\w+)` (the unquoted variant, tried second). -/
def matchBranchU (l : List Char) : Option (String × String) :=
  (dropLit "Branch".toList l).bind fun r =>
    (ws1 r).bind fun r2 => findCommaSplit [] r2

/-- A comment line: `line.startswith("#") or line.startswith("//")`. -/
def isComment : List Char → Bool
  | '#' :: _ => true
  | '/' :: '/' :: _ => true
  | _ => false

/-- The compiler's accumulator: the graph built so far plus the step under
construction (`current_step`, `actions`, `branch`, `ifs` in
`parse_text_script`). -/
structure PAcc where
  steps : List (String × Step1)
  current : Option String
  actions : List Action1
  branch : List (String × String)
  ifs : List (String × String)
deriving DecidableEq, Repr

/-- The accumulator at the start of compilation. -/
def initAcc : PAcc := ⟨[], none, [], [], []⟩

/-- `flush_step`: write the accumulated step (if one is open) into the graph
keyed by its name, then reset the per-step accumulators.  `current_step` is
kept, as in the source. -/
def flush_step (acc : PAcc) : PAcc :=
  match acc.current with
  | some name =>
    { acc with steps := dictInsert name ⟨acc.actions, acc.branch, acc.ifs⟩ acc.steps,
               actions := [], branch := [], ifs := [] }
  | none => { acc with actions := [], branch := [], ifs := [] }

/-- The body of `parse_text_script`'s per-line loop, applied to the
already-stripped line: skip blanks and comments, then try the grammar rules
in the source's order; a line matching none of them is silently skipped. -/
def processTrimmed (acc : PAcc) (l : List Char) : PAcc :=
  if l = [] then acc
  else if isComment l then acc
  else
    match matchStep l with
    | some name => { flush_step acc with current := some name }
    | none =>
    match matchSpeak l with
    | some expr0 =>
      let expr := String.mk (trimChars expr0.toList)
      let content :=
        if expr.toList.contains '+' || expr.toList.contains '$' then exprToTemplate expr
        else stripQuotes expr
      { acc with actions := acc.actions ++ [.speak content] }
    | none =>
    match matchListen l with
    | some p => { acc with actions := acc.actions ++ [.listen p.1 p.2] }
    | none =>
    match matchUpgrate l with
    | some p => { acc with actions := acc.actions ++ [.upgrate p.1 p.2] }
    | none =>
    match matchIf l with
    | some p => { acc with ifs := acc.ifs ++ [(p.1, p.2)] }
    | none =>
    match matchBranchQ l with
    | some p => { acc with branch := dictInsert p.1 p.2 acc.branch }
    | none =>
    match matchBranchU l with
    | some p => { acc with branch := dictInsert p.1 p.2 acc.branch }
    | none =>
    if (dropLit "Exit".toList l).isSome then { acc with actions := acc.actions ++ [.exitA] }
    else if (dropLit "Middle".toList l).isSome then { acc with actions := acc.actions ++ [.middle] }
    else acc

/-- One iteration of `parse_text_script`'s loop on a raw line:
`line = line.strip()` then `processTrimmed`. -/
def processLine (acc : PAcc) (rawLine : String) : PAcc :=
  processTrimmed acc (trimChars rawLine.toList)

/-- `parse_text_script` on a list of lines: fold the per-line step over the
lines, then the implicit end-of-input `flush_step()`; the result is the
`steps` dict of the produced JSON script. -/
def parseLines (ls : List String) : List (String × Step1) :=
  (flush_step (ls.foldl processLine initAcc)).steps

/-- `parse_text_script` on a source text (`text_script.splitlines()`). -/
def parse_text_script (src : String) : List (String × Step1) :=
  parseLines (src.splitOn "\n")

/-! ### Execution engine (`ScriptInterpreter.run`, `ASTNode1.get_next_node_name`) -/

/-- The guard loop of `ASTNode1.get_next_node_name`: conditions are
substituted and evaluated in declared order; the first evaluating to a true
value selects its target; a false result or an evaluation error
(`except Exception: continue`) moves on to the next guard. -/
def firstTrueGuard (ifs : List (String × String)) (ctx : List (String × PyVal)) :
    Option String :=
  match ifs with
  | [] => none
  | (cond, tgt) :: rest =>
    match pyEvalCmp (condSubst ctx cond) with
    | some true => some tgt
    | _ => firstTrueGuard rest ctx

/-- `ASTNode1.get_next_node_name(intention, context)`: the guard loop runs
only when the context dict is truthy (nonempty); if no guard fires, the
intent is looked up in the branch map (`self.branch.get(intention)`). -/
def get_next_node_name (node : Step1) (intention : String)
    (context : List (String × PyVal)) : Option String :=
  let guardRes := if context = [] then none else firstTrueGuard node.ifs context
  match guardRes with
  | some t => some t
  | none => dictLookup intention node.branch

/-- Python truthiness check on an optional string (`if not next_step`). -/
def optFalsy : Option String → Bool
  | none => true
  | some s => s = ""

/-- Outcome of the transition-resolution block: a resolved next step,
a normal stop (`next none`, the `break`), or the uncaught `AttributeError`
raised at `ScriptInterpreter.run` line 137, which aborts the session. -/
inductive TransResult
  | next (t : Option String)
  | attrError
deriving DecidableEq, Repr

/-- The tail of the transition block of `ScriptInterpreter.run` (lines
139-144): when `next_step` is still falsy, fall back to the `意图识别失败`
branch entry; when there is still no target, break out of the loop. -/
def resolveFallback (node : Step1) (next1 : Option String) : TransResult :=
  let next2 : Option String :=
    if optFalsy next1 then
      match dictLookup "意图识别失败" node.branch with
      | some t => some t
      | none => next1
    else next1
  .next (if optFalsy next2 then none else next2)

/-- The transition-resolution block of `ScriptInterpreter.run` (reached only
when no `Middle`/`Exit` action fired): a truthy captured intent is looked up
in the step's branch map and a hit is taken.  When the intent misses the
branch map, line 137 evaluates `self.tree.get_next_node_name` — but
`self.tree` is an `ASTree1`, which defines no such method
(`get_next_node_name` exists only on `ASTNode1`) — so the attribute access
raises `AttributeError` and the session aborts: guards are never evaluated
on this path and the data buffer is never consulted (`.attrError`).  With no
truthy intent, only the `意图识别失败` fallback of `resolveFallback`
applies. -/
def resolve_transition (node : Step1) (intent : Option String) : TransResult :=
  match intent with
  | some s =>
    if s = "" then resolveFallback node none
    else
      match dictLookup s node.branch with
      | some t => resolveFallback node (some t)
      | none => .attrError
  | none => resolveFallback node none

/-- The engine's mutable session state: `tree.data_buffer` plus the two slots
of `tree.input_buffer` (`listen_content` and `intent`). -/
structure EngineState where
  dataBuf : List (String × PyVal)
  listenContent : Option String
  intent : Option String
deriving DecidableEq, Repr

/-- `Speak` substitution in `ScriptInterpreter.run`: every `${k}` placeholder
is replaced by `str(v)` for each entry of the data buffer, in insertion
order; placeholders for unbound names are left as literal text. -/
def speakSubst (buf : List (String × PyVal)) (text : String) : String :=
  buf.foldl (fun t kv => strReplace t ("$" ++ lbrace.toString ++ kv.1 ++ rbrace.toString) (pyStr kv.2)) text

/-- Value resolution of an `upgrate` action (`ScriptInterpreter.run`):
a value beginning with `$` is a reference; `$listen_content` reads the input
buffer (empty string when no `Listen` has stored a value); any other
reference reads the data buffer and falls back to the original reference
text itself when the variable is unbound. -/
def resolveUpgradeValue (st : EngineState) (value : String) : PyVal :=
  match value.toList with
  | '$' :: rest =>
    let varName := String.mk rest
    if varName = "listen_content" then .str (st.listenContent.getD "")
    else
      match dictLookup varName st.dataBuf with
      | some v => v
      | none => .str value
  | _ => .str value

/-- The `upgrate` branch of `ScriptInterpreter.run`: the resolved value is
written (and `api.write_buffer_to_file`, the persistence hook, invoked —
counted by the second component) only when it differs from the field's
current value under Python `!=`. -/
def execUpgrate (st : EngineState) (field value : String) : EngineState × Nat :=
  let v := resolveUpgradeValue st value
  let differs : Bool :=
    match dictLookup field st.dataBuf with
    | some cur => !pyEq cur v
    | none => true
  if differs then ({ st with dataBuf := dictInsert field v st.dataBuf }, 1)
  else (st, 0)

/-- How the action loop of one step ended: fell through to transition
resolution, jumped (`Middle` sets `next_step = "middleProc"` and breaks), or
returned (`Exit`). -/
inductive ActOutcome
  | fell
  | jumped (t : String)
  | exited
deriving DecidableEq, Repr

/-- Result of running one step's action list: the session state, the lines
printed for the user, the unconsumed listen events, how the loop ended, and
the number of persistence-hook invocations. -/
structure ActResult where
  state : EngineState
  outputs : List String
  oracle : List (String × String)
  outcome : ActOutcome
  hook : Nat
deriving DecidableEq, Repr

/-- The action loop of `ScriptInterpreter.run`.  External input and intent
classification are modelled by the oracle list: each `Listen` consumes one
`(utterance, recognized-intent)` pair and overwrites both input-buffer slots
(an exhausted oracle is modelled as empty input with failed recognition; no
theorem below exercises that case).  `Middle` breaks out with a jump;
`Exit` prints the fixed farewell and returns at once. -/
def execActions : List Action1 → EngineState → List (String × String) → ActResult
  | [], st, o => ⟨st, [], o, .fell, 0⟩
  | a :: rest, st, o =>
    match a with
    | .speak content =>
      let out := speakSubst st.dataBuf content
      let r := execActions rest st o
      ⟨r.state, out :: r.outputs, r.oracle, r.outcome, r.hook⟩
    | .listen _ _ =>
      let ev := o.headD ("", "意图识别失败")
      let st2 := { st with listenContent := some ev.1, intent := some ev.2 }
      let r := execActions rest st2 o.tail
      ⟨r.state, r.outputs, r.oracle, r.outcome, r.hook⟩
    | .upgrate f v =>
      let p := execUpgrate st f v
      let r := execActions rest p.1 o
      ⟨r.state, r.outputs, r.oracle, r.outcome, r.hook + p.2⟩
    | .middle => ⟨st, [], o, .jumped "middleProc", 0⟩
    | .exitA => ⟨st, ["对话结束"], o, .exited, 0⟩

/-- Why a run ended: the resolved step name was absent from the graph
(dangling transition; the source prints an error and breaks), an `Exit`
action fired, no transition could be determined, the transition block
raised the uncaught `AttributeError` of line 137 (the session aborts with a
traceback), or the fuel ran out (never hit by the runs below). -/
inductive TermReason
  | stepNotFound (n : String)
  | exitedNormally
  | noTransition
  | crashed
  | fuelOut
deriving DecidableEq, Repr

/-- Result of a whole run: the steps whose actions were executed, everything
printed for the user, why it stopped, and the final session state. -/
structure RunResult where
  visited : List String
  outputs : List String
  reason : TermReason
  finalState : EngineState
deriving DecidableEq, Repr

/-- The `while current_step:` loop of `ScriptInterpreter.run`, fuelled.
Each iteration looks up the current step (breaking when absent), runs its
actions, and — unless `Middle` or `Exit` fired — resolves the transition
from the persisted input buffer; a `TransResult.attrError` there aborts the
whole run (`.crashed`), as the exception propagates uncaught. -/
def runLoop : Nat → List (String × Step1) → String → EngineState →
    List (String × String) → RunResult
  | 0, _, _, st, _ => ⟨[], [], .fuelOut, st⟩
  | fuel + 1, graph, current, st, o =>
    match dictLookup current graph with
    | none => ⟨[], [], .stepNotFound current, st⟩
    | some node =>
      let r := execActions node.actions st o
      match r.outcome with
      | .exited => ⟨[current], r.outputs, .exitedNormally, r.state⟩
      | .jumped t =>
        let rest := runLoop fuel graph t r.state r.oracle
        ⟨current :: rest.visited, r.outputs ++ rest.outputs, rest.reason, rest.finalState⟩
      | .fell =>
        match resolve_transition node r.state.intent with
        | .attrError => ⟨[current], r.outputs, .crashed, r.state⟩
        | .next (some t) =>
          let rest := runLoop fuel graph t r.state r.oracle
          ⟨current :: rest.visited, r.outputs ++ rest.outputs, rest.reason, rest.finalState⟩
        | .next none => ⟨[current], r.outputs, .noTransition, r.state⟩

/-! ### Helper lemmas -/

/-- Inserting a key makes its value the one found on lookup (Python dict
assignment overwrites: last write wins). -/
theorem dictLookup_dictInsert_self {α : Type} (k : String) (v : α)
    (d : List (String × α)) : dictLookup k (dictInsert k v d) = some v := by
  induction d with
  | nil => simp [dictInsert, dictLookup]
  | cons p rest ih =>
    by_cases h : p.1 = k
    · simp [dictInsert, dictLookup, h]
    · simp [dictInsert, dictLookup, h, ih]

/-- Successfully consuming a literal means the input starts with it. -/
theorem dropLit_eq : ∀ (lit s r : List Char), dropLit lit s = some r → s = lit ++ r := by
  intro lit
  induction lit with
  | nil =>
    intro s r h
    simp [dropLit] at h
    simpa using h
  | cons c cs ih =>
    intro s r h
    cases s with
    | nil => simp [dropLit] at h
    | cons d ds =>
      unfold dropLit at h
      by_cases hcd : c = d
      · subst hcd
        simp at h
        simpa using ih ds r h
      · simp [hcd] at h

/-- A guard whose substituted condition fails to evaluate is skipped and the
scan continues with the remaining guards. -/
theorem firstTrueGuard_skip_error (ctx : List (String × PyVal))
    (pre : List (String × String)) (c t : String) (post : List (String × String))
    (h : pyEvalCmp (condSubst ctx c) = none) :
    firstTrueGuard (pre ++ (c, t) :: post) ctx = firstTrueGuard (pre ++ post) ctx := by
  induction pre with
  | nil => simp [firstTrueGuard, h]
  | cons p rest ih =>
    obtain ⟨cond, tgt⟩ := p
    simp only [List.cons_append]
    cases hval : pyEvalCmp (condSubst ctx cond) with
    | none => simp [firstTrueGuard, hval, ih]
    | some b => cases b <;> simp [firstTrueGuard, hval, ih]

/-- The first guard (in declared order) whose condition evaluates true
selects its target. -/
theorem firstTrueGuard_first (ctx : List (String × PyVal))
    (pre : List (String × String)) (c t : String) (post : List (String × String))
    (hpre : ∀ p ∈ pre, pyEvalCmp (condSubst ctx p.1) ≠ some true)
    (hc : pyEvalCmp (condSubst ctx c) = some true) :
    firstTrueGuard (pre ++ (c, t) :: post) ctx = some t := by
  revert hpre
  induction pre with
  | nil =>
    intro _
    simp [firstTrueGuard, hc]
  | cons p rest ih =>
    intro hpre
    obtain ⟨cond, tgt⟩ := p
    have hp := hpre (cond, tgt) (by simp)
    simp only [List.cons_append]
    cases hval : pyEvalCmp (condSubst ctx cond) with
    | none =>
      simp only [firstTrueGuard, hval]
      exact ih (fun q hq => hpre q (by simp [hq]))
    | some b =>
      cases b
      · simp only [firstTrueGuard, hval]
        exact ih (fun q hq => hpre q (by simp [hq]))
      · exact absurd hval hp

/-- `execUpgrate` touches only the data buffer, never the input buffer. -/
theorem execUpgrate_intent (st : EngineState) (f v : String) :
    (execUpgrate st f v).1.intent = st.intent := by
  unfold execUpgrate
  cases dictLookup f st.dataBuf
  · rfl
  · dsimp only
    split
    · rfl
    · rfl

/-- An unbound `$name` reference (other than `$listen_content`) resolves to
the original reference text itself. -/
theorem resolveUpgradeValue_unbound (st : EngineState) (name : String)
    (hne : name ≠ "listen_content") (hl : dictLookup name st.dataBuf = none) :
    resolveUpgradeValue st ("$" ++ name) = .str ("$" ++ name) := by
  have htl : ("$" ++ name).toList = '$' :: name.toList := by
    simp [String.toList, String.data_append]
  unfold resolveUpgradeValue
  rw [htl]
  have hmk : String.mk name.toList = name := rfl
  simp [hmk, hne, hl]

/-! ### Claims -/

/-- A step carrying both a true guard and a branch entry, with a data buffer
making the guard condition `$amount > 100` true. -/
def c1Node : Step1 := ⟨[], [("refund", "br")], [("$amount > 100", "gt")]⟩

/-- Data buffer for `c1Node`'s guard (`amount = 200`). -/
def c1Buf : List (String × PyVal) := [("amount", .int 200)]

/-- Claim C1 is false on the code: for a step whose guard `$amount > 100`
evaluates true (conjunct 1) and whose branch map also has an entry for the
captured intent `refund`, transition resolution in `ScriptInterpreter.run`
selects the branch target `br` (conjunct 2), not the guard target `gt`
(conjunct 3) — the branch map is consulted first, the reverse of the claimed
order; and for a captured intent `other` with no branch entry the true guard
still does not select its target: the session aborts with the
`AttributeError` of line 137 (conjunct 4), so the guards never fire at
all. -/
theorem C1_counterexample :
    pyEvalCmp (condSubst c1Buf "$amount > 100") = some true ∧
    resolve_transition c1Node (some "refund") = .next (some "br") ∧
    resolve_transition c1Node (some "refund") ≠ .next (some "gt") ∧
    resolve_transition c1Node (some "other") = .attrError := by decide

/-- The guard condition of claim C2's failing input: an author-supplied
string whose generic evaluation performs a host call (`print`). -/
def c2Payload : String := "print(1) == None"

/-- Claim C2 (code_bug evidence): the compiler accepts the guard
`If print(1) == None Then pwn` verbatim (conjunct 1); variable substitution
— the only transformation `Ast1` applies before handing the condition to
Python's generic `eval` builtin — leaves the attacker-controlled text intact
(conjunct 2); and the bounded comparison fragment modelled by `pyEvalCmp`
cannot give it a value (conjunct 3): the behaviour the source gives this
guard exists only through generic code evaluation, which executes the host
operation `print(1)`, exactly what the claim forbids. -/
theorem C2_eval_pipeline :
    dictLookup "a" (parseLines ["Step a", "If print(1) == None Then pwn"]) =
      some ⟨[], [], [(c2Payload, "pwn")]⟩ ∧
    condSubst [("amount", PyVal.int 200)] c2Payload = c2Payload ∧
    pyEvalCmp c2Payload = none := by decide

/-- The claim C5 scenario: a step whose only action is `Exit`, with a
separate `exit` step defined with `Speak "Bye"`. -/
def c5Script : List String := ["Step welcome", "Exit", "Step exit", "Speak \"Bye\""]

/-- Claim C5 is false on the code: running the claim's own scenario, the
engine prints only the fixed farewell `对话结束` and terminates — the `exit`
step's `Speak` text `Bye` is never emitted (the claimed trace was
`["Bye"]`): `ScriptInterpreter.run` returns as soon as it sees an `exit`
action, without consulting the `exit` step at all. -/
theorem C5_counterexample :
    runLoop 10 (parseLines c5Script) "welcome" ⟨[], none, none⟩ [] =
      ⟨["welcome"], ["对话结束"], .exitedNormally, ⟨[], none, none⟩⟩ ∧
    "Bye" ∉ (runLoop 10 (parseLines c5Script) "welcome" ⟨[], none, none⟩ []).outputs := by
  decide

/-- Claim C7 is false on the code: compilation of a script containing the
spec's own malformed variant — an `If...Then` with unbalanced condition
parentheses — and a malformed `Listen` succeeds and returns a graph (the
`If` line is even accepted, its unbalanced condition stored as a guard; the
`Listen 5,` line is silently dropped).  `parse_text_script` contains no
failure path at all, so no line can make compilation fail with
`SyntaxError`. -/
theorem C7_counterexample :
    parseLines ["Step a", "If ($x > 1 Then t", "Listen 5,"] =
      [("a", ⟨[], [], [("($x > 1", "t")]⟩)] := by decide

/-- A script whose single branch targets a step that does not exist. -/
def c8Script : List String := ["Step welcome", "Listen 1,2", "Branch \"go\", nowhere"]

/-- Claim C8: compilation is purely syntactic — the dangling branch
`go → nowhere` compiles successfully (conjuncts 1 and 2: the entry is in the
graph, the target is not), and the dangling target is detected only at run
time, at the moment the transition is taken, whereupon the session
terminates (conjunct 3: the run executes `welcome`, resolves the transition
to `nowhere`, fails to look it up, and stops). -/
theorem C8_dangling_runtime :
    dictLookup "welcome" (parseLines c8Script) =
      some ⟨[.listen 1 2], [("go", "nowhere")], []⟩ ∧
    dictLookup "nowhere" (parseLines c8Script) = none ∧
    runLoop 10 (parseLines c8Script) "welcome" ⟨[], none, none⟩ [("x", "go")] =
      ⟨["welcome"], [], .stepNotFound "nowhere", ⟨[], some "x", some "go"⟩⟩ := by decide

/-- A three-step script: only `welcome` listens; `b` and `c` have no
`Listen` action. -/
def c9Script : List String :=
  ["Step welcome", "Listen 1,2", "Branch \"X\", b",
   "Step b", "Branch \"X\", c",
   "Step c", "Speak \"hi\""]

/-- Claim C9 is false on the code: the intent `X` captured during
`welcome`'s processing survives into step `b`, which runs no `Listen`, yet
`b`'s transition resolution consults that stale intent and follows its
branch to `c` (the run visits `["welcome", "b", "c"]`; under the claim it
would have ended at `b` with no intent captured that step).  The input
buffer is never cleared between steps in `ScriptInterpreter.run`.  At `c`
the still-stale intent misses the empty branch map, so after printing `hi`
the session aborts with the line-137 `AttributeError` (`.crashed`). -/
theorem C9_counterexample :
    runLoop 10 (parseLines c9Script) "welcome" ⟨[], none, none⟩ [("u", "X")] =
      ⟨["welcome", "b", "c"], ["hi"], .crashed, ⟨[], some "u", some "X"⟩⟩ := by decide

/-- Claim C1 as amended: transition resolution in `ScriptInterpreter.run`
consults only the branch map, never the guards.  Whenever the captured
intent has a (nonempty-target) branch entry, that entry is taken regardless
of the guards (conjunct 1); whenever the captured intent has no branch
entry, no guard is evaluated either — the line-137 call names a method
`ASTree1` does not define and the session aborts with `AttributeError`
(conjunct 2); and resolution is entirely independent of the step's guard
list and action list (conjunct 3). -/
theorem C1_branch_before_guards :
    (∀ (acts : List Action1) (ifs branch : List (String × String)) (s t : String),
       s ≠ "" → t ≠ "" → dictLookup s branch = some t →
       resolve_transition ⟨acts, branch, ifs⟩ (some s) = .next (some t)) ∧
    (∀ (acts : List Action1) (ifs branch : List (String × String)) (s : String),
       s ≠ "" → dictLookup s branch = none →
       resolve_transition ⟨acts, branch, ifs⟩ (some s) = .attrError) ∧
    (∀ (acts acts2 : List Action1) (branch ifs ifs2 : List (String × String))
       (intent : Option String),
       resolve_transition ⟨acts, branch, ifs⟩ intent =
         resolve_transition ⟨acts2, branch, ifs2⟩ intent) := by
  refine ⟨?_, ?_, fun acts acts2 branch ifs ifs2 intent => rfl⟩
  · intro acts ifs branch s t hs ht hl
    unfold resolve_transition resolveFallback
    simp [hs, hl, optFalsy, ht]
  · intro acts ifs branch s hs hl
    unfold resolve_transition
    simp [hs, hl]

/-- Witness for `C1_branch_before_guards` at concrete inputs: the branch
entry wins for intent `refund` even though the guard is true; intent
`other`, absent from the branch map, aborts the session instead of firing
the guard. -/
theorem C1_branch_before_guards_witness :
    resolve_transition ⟨[], [("refund", "br")], [("$amount > 100", "gt")]⟩
      (some "refund") = .next (some "br") ∧
    resolve_transition ⟨[], [("refund", "br")], [("$amount > 100", "gt")]⟩
      (some "other") = .attrError :=
  ⟨C1_branch_before_guards.1 [] [("$amount > 100", "gt")] [("refund", "br")]
     "refund" "br" (by decide) (by decide) (by decide),
   C1_branch_before_guards.2.1 [] [("$amount > 100", "gt")] [("refund", "br")]
     "other" (by decide) (by decide)⟩

/-- Claim C3: an `Upgrade` whose resolved value equals (Python `==`) the
field's current value leaves the session store unchanged and invokes the
persistence hook zero times (conjunct 1); conversely the hook fires only
when the resolved value differs (conjunct 2). -/
theorem C3_upgrade_noop (st : EngineState) (field value : String) :
    (∀ cur, dictLookup field st.dataBuf = some cur →
      pyEq cur (resolveUpgradeValue st value) = true →
      execUpgrate st field value = (st, 0)) ∧
    ((execUpgrate st field value).2 ≠ 0 →
      ∀ cur, dictLookup field st.dataBuf = some cur →
        pyEq cur (resolveUpgradeValue st value) = false) := by
  constructor
  · intro cur hcur heq
    unfold execUpgrate
    simp [hcur, heq]
  · intro hh cur hcur
    cases hpe : pyEq cur (resolveUpgradeValue st value)
    · rfl
    · exact absurd (by unfold execUpgrate; simp [hcur, hpe]) hh

/-- Witness for `C3_upgrade_noop`: setting `x` (currently `"a"`) to the
literal `"a"` is a no-op with zero hook invocations. -/
theorem C3_upgrade_noop_witness :
    execUpgrate ⟨[("x", .str "a")], none, none⟩ "x" "a" =
      (⟨[("x", .str "a")], none, none⟩, 0) :=
  (C3_upgrade_noop ⟨[("x", .str "a")], none, none⟩ "x" "a").1 (.str "a")
    (by decide) (by decide)

/-- Claim C4: a guard whose substituted condition cannot be evaluated
(`pyEvalCmp … = none`, the model of the caught exception) is treated as
false — transition resolution over the step with that guard coincides with
resolution over the step with the guard removed, so the remaining guards are
still scanned and the failure never aborts the session (`get_next_node_name`
is total and simply moves on). -/
theorem C4_guard_error_skipped (branch : List (String × String)) (s : String)
    (buf : List (String × PyVal)) (acts : List Action1)
    (pre post : List (String × String)) (c t : String)
    (h : pyEvalCmp (condSubst buf c) = none) :
    get_next_node_name ⟨acts, branch, pre ++ (c, t) :: post⟩ s buf =
      get_next_node_name ⟨acts, branch, pre ++ post⟩ s buf := by
  unfold get_next_node_name
  by_cases hb : buf = []
  · simp [hb]
  · simp [hb, firstTrueGuard_skip_error buf pre c t post h]

/-- Witness for `C4_guard_error_skipped`: the middle guard `$x > foo`
substitutes to `5 > foo`, which fails to evaluate (unbound name), and the
scan continues to the third guard exactly as if the bad guard were not
there. -/
theorem C4_guard_error_skipped_witness :
    get_next_node_name
        ⟨[], [], [("$x < 0", "neg"), ("$x > foo", "err"), ("$x > 1", "pos")]⟩
        "i" [("x", PyVal.int 5)] =
      get_next_node_name ⟨[], [], [("$x < 0", "neg"), ("$x > 1", "pos")]⟩
        "i" [("x", PyVal.int 5)] :=
  C4_guard_error_skipped [] "i" [("x", PyVal.int 5)] [] [("$x < 0", "neg")]
    [("$x > 1", "pos")] "$x > foo" "err" (by decide)

/-- Claim C5 as amended: an `Exit` action terminates the step's action loop
immediately — the remaining actions are skipped and only the fixed farewell
`对话结束` is printed (conjunct 1; the `exit` step's `Speak` text is never
consulted, substituted or emitted) — and the engine then stops with a normal
termination and no guard or branch transition resolution (conjunct 2). -/
theorem C5_exit_immediate :
    (∀ (acts : List Action1) (st : EngineState) (o : List (String × String)),
       execActions (Action1.exitA :: acts) st o = ⟨st, ["对话结束"], o, .exited, 0⟩) ∧
    (∀ (fuel : Nat) (graph : List (String × Step1)) (current : String)
       (st : EngineState) (o : List (String × String)) (node : Step1),
       dictLookup current graph = some node →
       (execActions node.actions st o).outcome = .exited →
       runLoop (fuel + 1) graph current st o =
         ⟨[current], (execActions node.actions st o).outputs, .exitedNormally,
          (execActions node.actions st o).state⟩) := by
  constructor
  · intro acts st o
    rfl
  · intro fuel graph current st o node hl ho
    unfold runLoop
    rw [hl]
    dsimp only
    rw [ho]

/-- Witness for `C5_exit_immediate`: a step whose `Exit` precedes a `Speak`
terminates at once, emitting only the farewell. -/
theorem C5_exit_immediate_witness :
    runLoop 10 (parseLines ["Step w", "Exit", "Speak \"after\""]) "w"
        ⟨[], none, none⟩ [] =
      ⟨["w"], ["对话结束"], .exitedNormally, ⟨[], none, none⟩⟩ :=
  C5_exit_immediate.2 9 (parseLines ["Step w", "Exit", "Speak \"after\""]) "w"
    ⟨[], none, none⟩ [] ⟨[.exitA, .speak "after"], [], []⟩ (by decide) (by decide)

/-- Claim C6: a line matching the `Step <name>` rule flushes the previously
accumulated step into the graph and resets the accumulator, opening the new
name (conjunct 1); the final step is flushed at end of input (conjunct 2:
step `a` is in the graph though no later `Step` line flushed it); flushing a
name already present overwrites it — last write wins (conjunct 3 in general,
conjunct 4 on a concrete two-definition script). -/
theorem C6_step_flush :
    (∀ (acc : PAcc) (l : List Char) (n : String),
       matchStep l = some n →
       processTrimmed acc l = { flush_step acc with current := some n }) ∧
    dictLookup "a" (parseLines ["Step a", "Exit"]) = some ⟨[.exitA], [], []⟩ ∧
    (∀ (acc : PAcc) (n : String), acc.current = some n →
       dictLookup n (flush_step acc).steps = some ⟨acc.actions, acc.branch, acc.ifs⟩) ∧
    dictLookup "a" (parseLines ["Step a", "Speak \"x\"", "Step a", "Exit"]) =
      some ⟨[.exitA], [], []⟩ := by
  refine ⟨?_, by decide, ?_, by decide⟩
  · intro acc l n h
    obtain ⟨r, hr⟩ : ∃ r, dropLit "Step".toList l = some r := by
      unfold matchStep at h
      cases hdl : dropLit "Step".toList l
      · rw [hdl] at h
        simp at h
      · exact ⟨_, rfl⟩
    have hl : l = 'S' :: 't' :: 'e' :: 'p' :: r := by
      simpa using dropLit_eq _ _ _ hr
    subst hl
    unfold processTrimmed
    rw [if_neg (by simp), if_neg (by simp [isComment]), h]
  · intro acc n h
    unfold flush_step
    rw [h]
    exact dictLookup_dictInsert_self n _ acc.steps

/-- Witness for `C6_step_flush`: the `Step a` directive on the initial
accumulator opens step `a`; flushing an accumulator whose open step `a`
shadows an earlier `a` entry returns the newly accumulated content. -/
theorem C6_step_flush_witness :
    processTrimmed initAcc "Step a".toList = { flush_step initAcc with current := some "a" } ∧
    dictLookup "a" (flush_step ⟨[("a", ⟨[], [], []⟩)], some "a", [.exitA], [], []⟩).steps =
      some ⟨[.exitA], [], []⟩ :=
  ⟨C6_step_flush.1 initAcc "Step a".toList "a" (by decide),
   C6_step_flush.2.2.1 ⟨[("a", ⟨[], [], []⟩)], some "a", [.exitA], [], []⟩ "a" rfl⟩

/-- Claim C7 as amended: blank lines (conjuncts 1 and 4) and comment lines
prefixed by `#` or `//` (conjuncts 2 and 3) are always skipped, and
unrecognized-but-well-formed lines are silently skipped (conjunct 5) — but a
line matching a recognized rule's malformed variant does **not** fail with
`SyntaxError`: it is silently skipped too (conjunct 6; and
`C7_counterexample` shows a malformed `If` being accepted outright).
`parse_text_script` has no failure path. -/
theorem C7_line_tolerance :
    (∀ acc : PAcc, processTrimmed acc [] = acc) ∧
    (∀ (acc : PAcc) (rest : List Char), processTrimmed acc ('#' :: rest) = acc) ∧
    (∀ (acc : PAcc) (rest : List Char), processTrimmed acc ('/' :: '/' :: rest) = acc) ∧
    (∀ (acc : PAcc) (l : String), trimChars l.toList = [] → processLine acc l = acc) ∧
    (∀ acc : PAcc, processLine acc "Unknown directive here" = acc) ∧
    (∀ acc : PAcc, processLine acc "Listen 5," = acc) := by
  refine ⟨fun acc => rfl, fun acc rest => rfl, fun acc rest => rfl, ?_,
          fun acc => rfl, fun acc => rfl⟩
  intro acc l h
  unfold processLine
  rw [h]
  rfl

/-- Witness for `C7_line_tolerance`: a whitespace-only line leaves the
compiler's accumulator untouched. -/
theorem C7_line_tolerance_witness : processLine initAcc "   " = initAcc :=
  C7_line_tolerance.2.2.2.1 initAcc "   " (by decide)

/-- Claim C9 as amended: a `Listen` action overwrites both slots of the
input buffer (conjunct 1), but the buffer is **not** scoped to the current
step: a step without a `Listen` action leaves the previously captured intent
in place (conjunct 2), and transition resolution consults it there
(`C9_counterexample` shows a stale intent driving a transition). -/
theorem C9_input_buffer :
    (∀ (mn mx : Int) (st : EngineState) (u i : String) (o : List (String × String)),
       (execActions [Action1.listen mn mx] st ((u, i) :: o)).state =
         { st with listenContent := some u, intent := some i }) ∧
    (∀ (acts : List Action1) (st : EngineState) (o : List (String × String)),
       (∀ mn mx, Action1.listen mn mx ∉ acts) →
       (execActions acts st o).state.intent = st.intent) := by
  constructor
  · intro mn mx st u i o
    rfl
  · intro acts
    induction acts with
    | nil =>
      intro st o h
      rfl
    | cons a rest ih =>
      intro st o h
      cases a with
      | speak c => exact ih st o (fun mn mx hm => h mn mx (List.mem_cons_of_mem _ hm))
      | listen mn mx => exact absurd (List.mem_cons_self _ _) (h mn mx)
      | upgrate f v =>
        exact (ih (execUpgrate st f v).1 o
          (fun mn mx hm => h mn mx (List.mem_cons_of_mem _ hm))).trans
          (execUpgrate_intent st f v)
      | middle => rfl
      | exitA => rfl

/-- Witness for `C9_input_buffer`: a step that only speaks keeps the intent
captured earlier. -/
theorem C9_input_buffer_witness :
    (execActions [Action1.speak "hi"] ⟨[], none, some "X"⟩ []).state.intent = some "X" :=
  C9_input_buffer.2 [Action1.speak "hi"] ⟨[], none, some "X"⟩ []
    (by intro mn mx hm; simp at hm)

/-- Claim C10: an `Upgrade` value beginning with `$` resolves
`$listen_content` to the empty string when no `Listen` has stored a value
(conjunct 1); any other unbound variable reference falls back to the
original reference text itself (conjunct 2), and that literal string is what
gets written to the store (conjunct 3). -/
theorem C10_upgrade_fallback :
    (∀ st : EngineState, st.listenContent = none →
       resolveUpgradeValue st "$listen_content" = .str "") ∧
    (∀ (st : EngineState) (name : String), name ≠ "listen_content" →
       dictLookup name st.dataBuf = none →
       resolveUpgradeValue st ("$" ++ name) = .str ("$" ++ name)) ∧
    (∀ (st : EngineState) (field name : String), name ≠ "listen_content" →
       dictLookup name st.dataBuf = none → dictLookup field st.dataBuf = none →
       dictLookup field ((execUpgrate st field ("$" ++ name)).1.dataBuf) =
         some (.str ("$" ++ name))) := by
  refine ⟨?_, fun st name hne hl => resolveUpgradeValue_unbound st name hne hl, ?_⟩
  · intro st h
    show PyVal.str (st.listenContent.getD "") = PyVal.str ""
    rw [h]
    rfl
  · intro st field name hne hlname hlfield
    have hv := resolveUpgradeValue_unbound st name hne hlname
    simp [execUpgrate, hv, hlfield, dictLookup_dictInsert_self]

/-- Witness for `C10_upgrade_fallback` at concrete inputs: with an empty
input buffer `$listen_content` resolves to `""`; unbound `$foo` resolves to
the literal `"$foo"` and is written as such. -/
theorem C10_upgrade_fallback_witness :
    resolveUpgradeValue ⟨[("a", .int 1)], none, none⟩ "$listen_content" = .str "" ∧
    resolveUpgradeValue ⟨[("a", .int 1)], none, none⟩ "$foo" = .str "$foo" ∧
    dictLookup "f" ((execUpgrate ⟨[("a", .int 1)], none, none⟩ "f" "$foo").1.dataBuf) =
      some (.str "$foo") :=
  ⟨C10_upgrade_fallback.1 ⟨[("a", .int 1)], none, none⟩ rfl,
   C10_upgrade_fallback.2.1 ⟨[("a", .int 1)], none, none⟩ "foo" (by decide) (by decide),
   C10_upgrade_fallback.2.2 ⟨[("a", .int 1)], none, none⟩ "f" "foo"
     (by decide) (by decide) (by decide)⟩

end CSBot
